import Mathlib

/-!
Verification development for the `eventmanager` cog
(`src/eventmanager/main.py` of LeDeathAmongst/bounty-cogs).

The repository ships `main.py` (the cog: reaction handler, cache and the
periodic `check_events` task).  `main.py` imports the data model
(`Event`, `Entrant`, `Flags` from `.model`) and the static class/spec
catalog (`.constants`), whose source files are not part of the sources
here; those operations are modelled from the specification (each such
definition says so in its doc comment).  Everything in the reaction
handler and the periodic task is translated from `main.py` itself.

Conventions of the shallow embedding:
* Python `dict`s (insertion ordered) become association lists.
* Discord side effects (removing reactions, sending DMs, editing the
  event message, posting to the channel) become an `Action` trace.
* An uncaught Python exception in a handler is `none` / `Except.error`.
* Machine integers are `Nat` (ids and timestamps never overflow here).
-/

namespace EventManager

/-- Opaque stand-in for the running bot instance that `from_json` receives
(only used for lazy live lookups, never for the serialized fields). -/
def Bot : Type := Unit

/-- Modelled from the spec: an Entrant is "one signed-up member with chosen
class/spec/category" — "user id, class name, spec name, category".
`category_class` is the class-name field (the name `main.py` reads at
`entrant.category_class`). -/
structure Entrant where
  user_id : Nat
  category_class : String
  category : String
  spec : String
deriving DecidableEq, Repr

/-- Modelled from the spec: an Event holds "identifiers (message id, guild
id, author id, channel id), name, description, image URL, end timestamp,
list of Entrant, ended flag". The end timestamp is a Unix time `Nat`. -/
structure Event where
  message_id : Nat
  guild_id : Nat
  channel_id : Nat
  author_id : Nat
  name : String
  description : String
  image : Option String
  end_time : Nat
  entrants : List Entrant
  ended : Bool
deriving DecidableEq, Repr

/-- Modelled from the spec: the embed "renders current state (name,
description, image, entrant list grouped by class/spec, time remaining or
'ended') deterministically from current fields — pure function of state".
Rendering to text is presentation; the embed value keeps the displayed
data (the deadline stands in for the time-remaining display). -/
structure Embed where
  title : String
  description : String
  image : Option String
  end_time : Nat
  roster : List Entrant
  endedState : Bool
deriving DecidableEq, Repr

/-- Modelled from the spec: `embed` as a pure function of the event state. -/
def Event.embed (e : Event) : Embed :=
  { title := e.name
    description := e.description
    image := e.image
    end_time := e.end_time
    roster := e.entrants
    endedState := e.ended }

/-- Modelled from the spec: `get_entrant(user_id)` "returns the Entrant for
user_id or none-value". -/
def Event.get_entrant (e : Event) (uid : Nat) : Option Entrant :=
  e.entrants.find? (fun en => en.user_id == uid)

/-- Modelled from the spec: `add_entrant(user_id, class_name, category,
spec)` "inserts or replaces the Entrant for user_id"; the prior entry of
that user (if any) is dropped and the new Entrant takes its place, keeping
"at most one Entrant per user id per Event". -/
def Event.add_entrant (e : Event) (uid : Nat) (cls cat sp : String) : Event :=
  { e with entrants :=
      e.entrants.filter (fun en => en.user_id != uid)
        ++ [{ user_id := uid, category_class := cls, category := cat, spec := sp }] }

/-- First occurrence removal, as Python `list.remove` does on the element
`get_entrant` returned (call sites only remove entrants that are present). -/
def removeFirst : List Entrant → Entrant → List Entrant
  | [], _ => []
  | x :: xs, y => if x = y then xs else x :: removeFirst xs y

/-- Modelled from the spec: `remove_entrant(entrant)` "removes by
identity/value". -/
def Event.remove_entrant (e : Event) (en : Entrant) : Event :=
  { e with entrants := removeFirst e.entrants en }

/-- Modelled from the spec: `end()` "marks the event ended, returns the
final embed". The pair is (mutated event, returned embed). -/
def Event.end (e : Event) : Event × Embed :=
  let e2 : Event := { e with ended := true }
  (e2, e2.embed)

/-- Serialized form of an Event: all fields of §3 that survive a
round-trip (live-lookup handles are reconstructed from the bot). -/
structure EventJson where
  name : String
  description : String
  end_time : Nat
  image : Option String
  author_id : Nat
  guild_id : Nat
  channel_id : Nat
  message_id : Nat
  entrants : List Entrant
  ended : Bool
deriving DecidableEq, Repr

/-- Modelled from the spec: `to_json` serializes "all fields above"
(identifiers, name, description, image URL, end timestamp, entrants,
ended flag). Named `json` because `main.py` reads `event.json`. -/
def Event.json (e : Event) : EventJson :=
  { name := e.name
    description := e.description
    end_time := e.end_time
    image := e.image
    author_id := e.author_id
    guild_id := e.guild_id
    channel_id := e.channel_id
    message_id := e.message_id
    entrants := e.entrants
    ended := e.ended }

/-- Modelled from the spec: `from_json` rebuilds the Event from its
serialized fields, given "a reference to the running bot instance to
reconstruct any live-lookup fields lazily" (the bot touches no serialized
field). -/
def Event.from_json (_bot : Bot) (j : EventJson) : Event :=
  { message_id := j.message_id
    guild_id := j.guild_id
    channel_id := j.channel_id
    author_id := j.author_id
    name := j.name
    description := j.description
    image := j.image
    end_time := j.end_time
    entrants := j.entrants
    ended := j.ended }

/-- Modelled from the spec: per-spec entry of the static catalog —
"spec name → {emoji, categories}". -/
structure SpecDetails where
  emoji : String
  categories : List String
deriving DecidableEq, Repr

/-- Modelled from the spec: per-class entry of the static catalog —
"class name → {emoji, specs}" with the specs dict in insertion order. -/
structure ClassDetails where
  emoji : String
  specs : List (String × SpecDetails)
deriving DecidableEq, Repr

/-- Modelled from the spec: the read-only class/spec catalog of
`.constants` — "static mapping from emoji → class name, and class name →
{emoji, specs}". -/
structure Catalog where
  emoji_class_dict : List (String × String)
  class_spec_dict : List (String × ClassDetails)

/-- The invariant of §3: at most one Entrant per user id per Event,
stated as: the entrant list carries no duplicate user id. -/
def uniqueEntrants (e : Event) : Prop :=
  (e.entrants.map Entrant.user_id).Nodup

instance (e : Event) : Decidable (uniqueEntrants e) := by
  unfold uniqueEntrants; infer_instance

/-! ## The reaction handler (`EventManager.on_raw_reaction_add`, main.py 100-245)

The listener's early guards (no guild id, cache miss, unresolvable
message, unresolvable user) return having done nothing; the embedding
starts where the payload resolved to a cached `Event` and a user.
Discord calls become an `Action` trace in program order; a reaction
removal that Discord rejects is swallowed by the source (`try`/`except
Exception: pass`), so emitting the attempt loses nothing. -/

/-- The user-visible DM payloads of `main.py`, one constructor per
`user.send` call site. -/
inductive DMMsg where
  /-- The numbered spec list for the chosen class (main.py 149-158). -/
  | specPrompt (class_name : String) (valid_specs : List (String × String))
  /-- "You have been signed up to the event." (main.py 199) -/
  | signedUp
  /-- "You took too long to respond. Cancelling." (main.py 178) -/
  | tooLong
  /-- "That's not a valid answer. You must write a number from 1 to n"
  (main.py 188-190). -/
  | invalidAnswer (n : Nat)
  /-- "The event was ended." (main.py 226) -/
  | eventEnded
  /-- "You have been removed from the event." (main.py 240) -/
  | removedFromEvent
  /-- "You weren't signed up to the event." (main.py 245) -/
  | notSignedUp
deriving DecidableEq, Repr

/-- One Discord side effect of the handler, in program order. -/
inductive Action where
  /-- `message.remove_reaction(emoji, user)` -/
  | removeReaction (emoji : String) (userId : Nat)
  /-- `message.clear_reactions()` (main.py 219) -/
  | clearReactions
  /-- `user.send(...)` -/
  | sendDM (userId : Nat) (msg : DMMsg)
  /-- `message.channel.send(...)` — the public DM-failure notice
  (main.py 161-163). -/
  | channelSend (userId : Nat)
  /-- `message.edit(embed=...)` / `msg.edit(embed=...)` -/
  | editMessage (embed : Embed)
deriving DecidableEq, Repr

/-- Python `str.isdigit` restricted to ASCII digit strings: true iff the
string is non-empty and every character is a digit. -/
def pyIsDigit (s : String) : Bool :=
  !s.isEmpty && s.toList.all (fun c => c.isDigit)

/-- Python `int(...)` on a digit string. -/
def pyInt (s : String) : Nat :=
  s.toList.foldl (fun a c => a * 10 + (c.toNat - 48)) 0

/-- The reply test of main.py 185-187, negated: the reply is accepted iff
`msg.content.isdigit()` and `int(msg.content)` is a member of
`[i + 1 for i in range(len(valid_specs))]`. -/
def validAnswer (n : Nat) (r : String) : Bool :=
  pyIsDigit r && (List.range n).any (fun i => pyInt r == i + 1)

/-- The `while answer is None` wait loop (main.py 166-193). `replies` is
the stream of DM messages from the user that pass the `wait_for` check;
exhausting it is the 60-second `asyncio.TimeoutError`. Returns the
actions of the loop and `some answer` on acceptance, `none` on timeout
(whereupon the user was notified and the triggering reaction removed). -/
def specLoop (emoji : String) (uid : Nat) (n : Nat) : List String → List Action × Option Nat
  | [] => ([Action.sendDM uid DMMsg.tooLong, Action.removeReaction emoji uid], none)
  | r :: rs =>
    if validAnswer n r then
      ([], some (pyInt r))
    else
      let p := specLoop emoji uid n rs
      (Action.sendDM uid (DMMsg.invalidAnswer n) :: p.1, p.2)

/-- main.py 136-141: when the user already has an Entrant, the reaction
of the previous class's emoji is removed (cosmetic cleanup). The key
lookup `class_spec_dict[entrant.category_class]` is unguarded in the
source, so a missing class is an uncaught `KeyError` (`none`). -/
def priorCleanup (cat : Catalog) (e : Event) (uid : Nat) : Option (List Action) :=
  match e.get_entrant uid with
  | none => some []
  | some entrant =>
    match List.lookup entrant.category_class cat.class_spec_dict with
    | none => none
    | some det => some [Action.removeReaction det.emoji uid]

/-- The class-emoji branch (main.py 134-208): cosmetic cleanup of the
previous class's reaction, spec prompt by DM (public notice and abort
when the DM fails), the reply wait loop, and on acceptance
`add_entrant` with the class, the first category of the chosen spec and
the spec, then confirmation DM, message edit and removal of the
triggering reaction. `none` is an uncaught exception (unguarded dict
index or `categories[0]` on an empty list). -/
def classBranch (cat : Catalog) (e : Event) (uid : Nat) (emoji : String)
    (dmOk : Bool) (replies : List String) : Option (Event × List Action) :=
  match priorCleanup cat e uid with
  | none => none
  | some acts0 =>
    match List.lookup emoji cat.emoji_class_dict with
    | none => none
    | some class_name =>
      match List.lookup class_name cat.class_spec_dict with
      | none => none
      | some details =>
        let valid_specs := details.specs.map (fun kv => (kv.1, kv.2.emoji))
        if dmOk then
          let prompt := Action.sendDM uid (DMMsg.specPrompt class_name valid_specs)
          let lp := specLoop emoji uid valid_specs.length replies
          match lp.2 with
          | none => some (e, acts0 ++ prompt :: lp.1)
          | some answer =>
            match valid_specs[answer - 1]? with
            | none => none
            | some sp =>
              match List.lookup sp.1 details.specs with
              | none => none
              | some spDet =>
                match spDet.categories.head? with
                | none => none
                | some cat0 =>
                  let e2 := e.add_entrant uid class_name cat0 sp.1
                  some (e2, acts0 ++ prompt :: lp.1 ++
                    [Action.sendDM uid DMMsg.signedUp,
                     Action.editMessage e2.embed,
                     Action.removeReaction emoji uid])
        else
          some (e, acts0 ++ [Action.channelSend uid])

/-- The end-emoji branch (main.py 210-228): a non-author's reaction is
stripped and nothing changes; the author's reaction clears all
reactions, ends the event, DMs the author and edits the message with the
embed `end()` returned. -/
def endBranch (e : Event) (uid : Nat) : Event × List Action :=
  if e.author_id ≠ uid then
    (e, [Action.removeReaction "❌" uid])
  else
    let p := e.end
    (p.1, [Action.clearReactions, Action.sendDM uid DMMsg.eventEnded,
           Action.editMessage p.2])

/-- The leave-emoji branch (main.py 230-245): the reaction is stripped
unconditionally; then either the user's Entrant is removed with a
confirmation DM and a message edit, or a "not signed up" DM is sent. -/
def leaveBranch (e : Event) (uid : Nat) : Event × List Action :=
  match e.get_entrant uid with
  | some entrant =>
    let e2 := e.remove_entrant entrant
    (e2, [Action.removeReaction "🧻" uid,
          Action.sendDM uid DMMsg.removedFromEvent,
          Action.editMessage e2.embed])
  | none =>
    (e, [Action.removeReaction "🧻" uid, Action.sendDM uid DMMsg.notSignedUp])

/-- The dispatch of `on_raw_reaction_add` after the payload resolved
(main.py 121-245): bot reactions are ignored, an emoji that is neither a
class emoji nor ❌ nor 🧻 is removed to keep the menu clean, and the
three branches follow the source's `if`/`elif` order. -/
def handleReaction (cat : Catalog) (e : Event) (uid : Nat) (userIsBot : Bool)
    (emoji : String) (dmOk : Bool) (replies : List String) :
    Option (Event × List Action) :=
  if userIsBot then
    some (e, [])
  else if List.lookup emoji cat.emoji_class_dict = none ∧ emoji ≠ "❌" ∧ emoji ≠ "🧻" then
    some (e, [Action.removeReaction emoji uid])
  else if (List.lookup emoji cat.emoji_class_dict).isSome then
    classBranch cat e uid emoji dmOk replies
  else if emoji = "❌" then
    some (endBranch e uid)
  else
    some (leaveBranch e uid)

/-! ## Cache, persistence bridge and the periodic task (main.py 25-59, 247-265) -/

/-- The in-memory cache `self.cache : Dict[int, Dict[int, Event]]`,
guild id → (message id → Event), as a two-level association list. -/
abbrev Cache : Type := List (Nat × List (Nat × Event))

/-- The persisted store `config.custom("events", guild_id, message_id)`,
a two-level record of serialized events. -/
abbrev Storage : Type := List (Nat × List (Nat × EventJson))

/-- Insert-or-replace on the inner (message id keyed) level. -/
def setInner {α : Type} (l : List (Nat × α)) (k : Nat) (v : α) : List (Nat × α) :=
  match l with
  | [] => [(k, v)]
  | kv :: rest => if kv.1 = k then (k, v) :: rest else kv :: setInner rest k v

/-- Insert-or-replace on the outer (guild id keyed) level, creating the
guild record when absent (Python `setdefault` / nested config keys). -/
def setOuter {α : Type} (l : List (Nat × List (Nat × α))) (g k : Nat) (v : α) :
    List (Nat × List (Nat × α)) :=
  match l with
  | [] => [(g, [(k, v)])]
  | gv :: rest =>
    if gv.1 = g then (g, setInner gv.2 k v) :: rest else gv :: setOuter rest g k v

/-- `to_config` (main.py 52-56): every cached event's `json` is written to
the store under `(event.guild_id, event.message_id)`. -/
def to_config (cache : Cache) (st : Storage) : Storage :=
  cache.foldl
    (fun acc g =>
      g.2.foldl
        (fun acc2 me => setOuter acc2 me.2.guild_id me.2.message_id me.2.json) acc)
    st

/-- `to_cache` (main.py 41-50): every stored record is deserialized with
`Event.from_json` and cached under the guild and the record's own
`message_id` field (`from_json` here is total, so the logged-and-skipped
branch of the source never fires). -/
def to_cache (bot : Bot) (st : Storage) (cache : Cache) : Cache :=
  st.foldl
    (fun acc g =>
      g.2.foldl
        (fun acc2 mj => setOuter acc2 g.1 mj.2.message_id (Event.from_json bot mj.2))
        acc)
    cache

/-- One event of the expiry scan (the loop body, main.py 258-265): an
event past its deadline is ended first, its message fetched after
(`fetchable` on channel id and message id models `event.message()`
resolving or not), and the embed edit happens only when the fetch
succeeded. The returned list holds the `msg.edit` embeds. -/
def expireOne (now : Nat) (fetchable : Nat → Nat → Bool) (ev : Event) :
    Event × List Embed :=
  if ev.end_time ≤ now then
    let p := ev.end
    if fetchable p.1.channel_id p.1.message_id then (p.1, [p.2]) else (p.1, [])
  else
    (ev, [])

/-- The expiry scan over the whole cache (main.py 256-265): `end()`
mutates the cached objects in place, so the returned cache carries the
per-event results of `expireOne`; the edit trace collects the performed
`msg.edit` calls. -/
def expireScan (now : Nat) (fetchable : Nat → Nat → Bool) (cache : Cache) :
    Cache × List Embed :=
  (cache.map (fun g => (g.1, g.2.map (fun m => (m.1, (expireOne now fetchable m.2).1)))),
   (cache.map (fun g => (g.2.map (fun m => (expireOne now fetchable m.2).2)).flatten)).flatten)

/-- `check_events` (main.py 247-265), the body of the `tasks.loop`. After
`await self.to_config()` the source executes `await self.cache.clear()`;
`dict.clear()` returns `None` and awaiting `None` raises `TypeError`, so
every run aborts there: the flush has happened, but the clear, the
reload (`to_cache`) and the expiry scan are never reached. The result is
the store after the flush and the error the body raises. -/
def checkEvents (cache : Cache) (st : Storage) :
    Storage × Except String (Cache × List Embed) :=
  let st1 := to_config cache st
  (st1, Except.error "TypeError: object NoneType cannot be used in await expression")

/-! ## Concrete data for witnesses -/

/-- A small concrete class/spec catalog shaped like `.constants`
(two classes; the Mage class lists three specs, in insertion order). -/
def exCatalog : Catalog :=
  { emoji_class_dict := [("🧙", "Mage"), ("⚔️", "Warrior")]
    class_spec_dict :=
      [("Mage",
        { emoji := "🧙"
          specs :=
            [("Frost", { emoji := "❄️", categories := ["Ranged"] }),
             ("Fire", { emoji := "🔥", categories := ["Ranged", "Caster"] }),
             ("Arcane", { emoji := "✨", categories := ["Ranged"] })] }),
       ("Warrior",
        { emoji := "⚔️"
          specs :=
            [("Arms", { emoji := "🗡️", categories := ["Melee"] }),
             ("Protection", { emoji := "🛡️", categories := ["Tank"] })] })] }

/-- A fresh event with no entrants, authored by user 42. -/
def exEvent : Event :=
  { message_id := 100, guild_id := 1, channel_id := 2, author_id := 42
    name := "Raid", description := "desc", image := none, end_time := 1000
    entrants := [], ended := false }

/-- The same event after user 7 signed up as Frost Mage. -/
def exEventSigned : Event :=
  { exEvent with
    entrants := [{ user_id := 7, category_class := "Mage", category := "Ranged", spec := "Frost" }] }

/-! ## Helper lemmas -/

theorem removeFirst_sublist (l : List Entrant) (y : Entrant) :
    List.Sublist (removeFirst l y) l := by
  induction l with
  | nil => simp [removeFirst]
  | cons x xs ih =>
    by_cases h : x = y
    · simp [removeFirst, h, List.sublist_cons_self x xs]
    · simpa [removeFirst, h] using ih.cons₂ x

theorem uniqueEntrants_add_entrant (e : Event) (uid : Nat) (cls cat sp : String)
    (h : uniqueEntrants e) : uniqueEntrants (e.add_entrant uid cls cat sp) := by
  unfold uniqueEntrants Event.add_entrant at *
  simp only [List.map_append, List.map_cons, List.map_nil]
  rw [List.nodup_append]
  refine ⟨((List.filter_sublist _).map _).nodup h, List.nodup_singleton _, ?_⟩
  intro a ha hb
  simp only [List.mem_singleton] at hb
  subst hb
  simp only [List.mem_map, List.mem_filter, bne_iff_ne, ne_eq] at ha
  obtain ⟨en, ⟨_, hne⟩, heq⟩ := ha
  exact hne heq

theorem length_filter_le_one_of_nodup_map {α : Type} (f : α → Nat) (l : List α)
    (h : (l.map f).Nodup) (u : Nat) :
    (l.filter fun x => f x == u).length ≤ 1 := by
  induction l with
  | nil => simp
  | cons x xs ih =>
    simp only [List.map_cons, List.nodup_cons] at h
    by_cases hx : f x = u
    · have hnil : (xs.filter fun x => f x == u) = [] := by
        rw [List.filter_eq_nil_iff]
        intro a ha hfa
        simp only [beq_iff_eq] at hfa
        exact h.1 (by rw [hx, ← hfa]; exact List.mem_map_of_mem f ha)
      simp [List.filter_cons, hx, hnil]
    · simpa [List.filter_cons, hx] using ih h.2

theorem find?_filter_append_single (l : List Entrant) (uid : Nat) (new : Entrant)
    (hnew : new.user_id = uid) :
    ((l.filter fun en => en.user_id != uid) ++ [new]).find?
        (fun en => en.user_id == uid) = some new := by
  induction l with
  | nil => simp [List.find?, hnew]
  | cons x xs ih =>
    by_cases hx : x.user_id = uid
    · simpa [List.filter_cons, hx] using ih
    · simpa [List.filter_cons, List.find?, hx] using ih

theorem get_entrant_add_entrant (e : Event) (uid : Nat) (cls cat sp : String) :
    (e.add_entrant uid cls cat sp).get_entrant uid
      = some { user_id := uid, category_class := cls, category := cat, spec := sp } := by
  unfold Event.get_entrant Event.add_entrant
  exact find?_filter_append_single e.entrants uid _ rfl

theorem find?_removeFirst_eq_none (l : List Entrant) (uid : Nat) (en : Entrant)
    (hnd : (l.map Entrant.user_id).Nodup)
    (hf : l.find? (fun x => x.user_id == uid) = some en) :
    (removeFirst l en).find? (fun x => x.user_id == uid) = none := by
  induction l with
  | nil => simp [List.find?] at hf
  | cons x xs ih =>
    simp only [List.map_cons, List.nodup_cons] at hnd
    by_cases hx : x.user_id = uid
    · rw [List.find?_cons_of_pos _ (by simpa using hx)] at hf
      have hxe : en = x := by injection hf with h2; exact h2.symm
      subst hxe
      rw [show removeFirst (en :: xs) en = xs from by simp [removeFirst]]
      rw [List.find?_eq_none]
      intro a ha hpa
      simp only [beq_iff_eq] at hpa
      exact hnd.1 (by rw [hx, ← hpa]; exact List.mem_map_of_mem _ ha)
    · rw [List.find?_cons_of_neg _ (by simpa using hx)] at hf
      have hxen : x ≠ en := by
        intro hxe
        have := List.find?_some hf
        simp only [beq_iff_eq] at this
        exact hx (hxe ▸ this)
      rw [show removeFirst (x :: xs) en = x :: removeFirst xs en from by
        simp [removeFirst, hxen]]
      rw [List.find?_cons_of_neg _ (by simpa using hx)]
      exact ih hnd.2 hf

theorem specLoop_all_invalid (emoji : String) (uid : Nat) (n : Nat)
    (replies : List String) (hall : ∀ r ∈ replies, validAnswer n r = false) :
    specLoop emoji uid n replies
      = (replies.map (fun _ => Action.sendDM uid (DMMsg.invalidAnswer n))
          ++ [Action.sendDM uid DMMsg.tooLong, Action.removeReaction emoji uid],
         none) := by
  induction replies with
  | nil => simp [specLoop]
  | cons r rs ih =>
    have hr : validAnswer n r = false := hall r (List.mem_cons_self r rs)
    have hrs : ∀ x ∈ rs, validAnswer n x = false :=
      fun x hx => hall x (List.mem_cons_of_mem r hx)
    simp [specLoop, hr, ih hrs]

theorem specLoop_valid_head (emoji : String) (uid : Nat) (n : Nat)
    (r : String) (rest : List String) (h : validAnswer n r = true) :
    specLoop emoji uid n (r :: rest) = ([], some (pyInt r)) := by
  simp [specLoop, h]

/-- The only event states the class-emoji branch can produce: the input
event unchanged, or the input event after one `add_entrant` for the
reacting user. -/
theorem classBranch_state (cat : Catalog) (e : Event) (uid : Nat) (emoji : String)
    (dmOk : Bool) (replies : List String) (e2 : Event) (acts : List Action)
    (h : classBranch cat e uid emoji dmOk replies = some (e2, acts)) :
    e2 = e ∨ ∃ cls cat0 sp, e2 = e.add_entrant uid cls cat0 sp := by
  unfold classBranch at h
  repeat' (first | split at h | dsimp only [] at h)
  any_goals exact Option.noConfusion h
  all_goals simp only [Option.some.injEq, Prod.mk.injEq] at h
  all_goals first
    | (left; exact h.1.symm)
    | (right; exact ⟨_, _, _, h.1.symm⟩)

/-- The only event states the dispatcher can produce: unchanged, ended,
one `add_entrant` for the reacting user, or one `remove_entrant`. -/
theorem handleReaction_state (cat : Catalog) (e : Event) (uid : Nat)
    (userIsBot : Bool) (emoji : String) (dmOk : Bool) (replies : List String)
    (e2 : Event) (acts : List Action)
    (h : handleReaction cat e uid userIsBot emoji dmOk replies = some (e2, acts)) :
    e2 = e ∨ e2 = { e with ended := true }
      ∨ (∃ cls cat0 sp, e2 = e.add_entrant uid cls cat0 sp)
      ∨ (∃ en, e2 = e.remove_entrant en) := by
  unfold handleReaction at h
  split at h
  · left; simp_all
  split at h
  · left; simp_all
  split at h
  · rcases classBranch_state cat e uid emoji dmOk replies e2 acts h with h1 | h1
    · left; exact h1
    · right; right; left; exact h1
  split at h
  · unfold endBranch at h
    split at h
    · left; simp_all
    · right; left
      simp only [Event.end, Option.some.injEq, Prod.mk.injEq] at h
      exact h.1.symm
  · unfold leaveBranch at h
    split at h
    · right; right; right
      simp only [Option.some.injEq, Prod.mk.injEq] at h
      exact ⟨_, h.1.symm⟩
    · left; simp_all

/-! ## Claims -/

/-- C1: every outcome of the reaction handler keeps at most one Entrant
per user id in the event: an event whose entrant list has no duplicate
user ids still has none afterwards (so each user has at most one
Entrant), and whenever the handler produced its state by the signup
`add_entrant`, the reacting user's single Entrant is the newly created
one — a class swap replaces the prior entry and never duplicates it. -/
theorem claim_entrant_unique (cat : Catalog) (e : Event) (uid : Nat)
    (userIsBot : Bool) (emoji : String) (dmOk : Bool) (replies : List String)
    (e2 : Event) (acts : List Action)
    (hu : uniqueEntrants e)
    (h : handleReaction cat e uid userIsBot emoji dmOk replies = some (e2, acts)) :
    uniqueEntrants e2
      ∧ (∀ u : Nat, (e2.entrants.filter fun en => en.user_id == u).length ≤ 1)
      ∧ (∀ cls cat0 sp, e2 = e.add_entrant uid cls cat0 sp →
          e2.get_entrant uid
            = some { user_id := uid, category_class := cls, category := cat0, spec := sp }) := by
  have hu2 : uniqueEntrants e2 := by
    rcases handleReaction_state cat e uid userIsBot emoji dmOk replies e2 acts h with
      h1 | h1 | ⟨cls, cat0, sp, h1⟩ | ⟨en, h1⟩
    · exact h1 ▸ hu
    · subst h1; exact hu
    · exact h1 ▸ uniqueEntrants_add_entrant e uid cls cat0 sp hu
    · subst h1
      exact ((removeFirst_sublist e.entrants en).map Entrant.user_id).nodup hu
  refine ⟨hu2, fun u => length_filter_le_one_of_nodup_map Entrant.user_id e2.entrants hu2 u, ?_⟩
  intro cls cat0 sp h1
  exact h1 ▸ get_entrant_add_entrant e uid cls cat0 sp

/-- C1 witness: user 7, already signed up as a Frost Mage, swaps to
Warrior by reacting ⚔️ and answering 1; the run replaces the entry. -/
theorem claim_entrant_unique_witness :
    uniqueEntrants exEventSigned ∧
      (uniqueEntrants
          { exEvent with entrants :=
              [{ user_id := 7, category_class := "Warrior", category := "Melee", spec := "Arms" }] }
        ∧ (∀ u : Nat,
            (({ exEvent with entrants :=
                [{ user_id := 7, category_class := "Warrior", category := "Melee", spec := "Arms" }] } :
              Event).entrants.filter fun en => en.user_id == u).length ≤ 1)
        ∧ (∀ cls cat0 sp,
            ({ exEvent with entrants :=
                [{ user_id := 7, category_class := "Warrior", category := "Melee", spec := "Arms" }] } :
              Event) = exEventSigned.add_entrant 7 cls cat0 sp →
            ({ exEvent with entrants :=
                [{ user_id := 7, category_class := "Warrior", category := "Melee", spec := "Arms" }] } :
              Event).get_entrant 7
              = some { user_id := 7, category_class := cls, category := cat0, spec := sp })) :=
  ⟨by decide,
   claim_entrant_unique exCatalog exEventSigned 7 false "⚔️" true ["1"]
     { exEvent with entrants :=
         [{ user_id := 7, category_class := "Warrior", category := "Melee", spec := "Arms" }] }
     [Action.removeReaction "🧙" 7,
      Action.sendDM 7 (DMMsg.specPrompt "Warrior" [("Arms", "🗡️"), ("Protection", "🛡️")]),
      Action.sendDM 7 DMMsg.signedUp,
      Action.editMessage
        { title := "Raid", description := "desc", image := none, end_time := 1000,
          roster := [{ user_id := 7, category_class := "Warrior", category := "Melee", spec := "Arms" }],
          endedState := false },
      Action.removeReaction "⚔️" 7]
     (by decide) (by decide)⟩

/-- C2 (refuted by the code, for every input): each run of the
`check_events` body performs the flush (`to_config`) and then raises
`TypeError` at `await self.cache.clear()` — `dict.clear()` returns
`None`, which cannot be awaited — so the clear, the reload and the
expiry scan of the claimed sequence never execute (and `__init__` never
starts the loop in the first place). -/
theorem claim_check_events_never_completes (cache : Cache) (st : Storage) :
    checkEvents cache st
      = (to_config cache st,
         Except.error "TypeError: object NoneType cannot be used in await expression") := rfl

/-- C2 auxiliary evaluation at a concrete failing input: one cached
event, empty store — the flush lands in the store and the run errors
before clearing or scanning. -/
theorem claim_check_events_never_completes_concrete :
    checkEvents [(1, [(100, exEvent)])] []
      = ([(1, [(100, exEvent.json)])],
         Except.error "TypeError: object NoneType cannot be used in await expression") := by
  rfl

/-- C10: in the expiry scan (the loop of main.py 256-265), an event past
its deadline is ended before its message is fetched: its cache entry is
the event with `ended := true` whatever `fetchable` says, and when the
message cannot be fetched only the embed edit is skipped (the edit trace
of that event is empty). -/
theorem claim_expiry_ends_before_fetch (now : Nat) (fetchable : Nat → Nat → Bool)
    (cache : Cache) (gid : Nat) (glist : List (Nat × Event)) (mid : Nat) (ev : Event)
    (hg : (gid, glist) ∈ cache) (hm : (mid, ev) ∈ glist) (hex : ev.end_time ≤ now) :
    (expireOne now fetchable ev).1 = { ev with ended := true }
      ∧ (expireOne now fetchable ev).2
          = (if fetchable ev.channel_id ev.message_id
             then [({ ev with ended := true } : Event).embed] else [])
      ∧ (gid, glist.map fun m => (m.1, (expireOne now fetchable m.2).1))
          ∈ (expireScan now fetchable cache).1
      ∧ (mid, ({ ev with ended := true } : Event))
          ∈ glist.map fun m => (m.1, (expireOne now fetchable m.2).1) := by
  have h1 : (expireOne now fetchable ev).1 = { ev with ended := true } := by
    by_cases hf : fetchable ev.channel_id ev.message_id <;>
      simp [expireOne, hex, Event.end, hf, Event.embed]
  refine ⟨h1, ?_, ?_, ?_⟩
  · by_cases hf : fetchable ev.channel_id ev.message_id <;>
      simp [expireOne, hex, Event.end, hf, Event.embed]
  · simp only [expireScan]
    exact List.mem_map_of_mem _ hg
  · have h2 := List.mem_map_of_mem (fun m => (m.1, (expireOne now fetchable m.2).1)) hm
    simp only at h2
    rwa [h1] at h2

/-- C10 witness: one expired event whose message is gone; the scan still
marks it ended and performs no edit. -/
theorem claim_expiry_ends_before_fetch_witness :
    (expireOne 2000 (fun _ _ => false) exEvent).1 = { exEvent with ended := true }
      ∧ (expireOne 2000 (fun _ _ => false) exEvent).2
          = (if (fun (_ _ : Nat) => false) exEvent.channel_id exEvent.message_id
             then [({ exEvent with ended := true } : Event).embed] else [])
      ∧ (1, [(100, exEvent)].map fun m => (m.1, (expireOne 2000 (fun _ _ => false) m.2).1))
          ∈ (expireScan 2000 (fun _ _ => false) [(1, [(100, exEvent)])]).1
      ∧ (100, ({ exEvent with ended := true } : Event))
          ∈ [(100, exEvent)].map fun m => (m.1, (expireOne 2000 (fun _ _ => false) m.2).1) :=
  claim_expiry_ends_before_fetch 2000 (fun _ _ => false) [(1, [(100, exEvent)])]
    1 [(100, exEvent)] 100 exEvent (by decide) (by decide) (by decide)

/-- C6: serializing an Event and deserializing with the bot reference
reproduces the name, description, end time, image, author, guild,
channel and message ids, and the entrant list up to order. -/
theorem claim_json_roundtrip (b : Bot) (e : Event) :
    (Event.from_json b e.json).name = e.name
      ∧ (Event.from_json b e.json).description = e.description
      ∧ (Event.from_json b e.json).end_time = e.end_time
      ∧ (Event.from_json b e.json).image = e.image
      ∧ (Event.from_json b e.json).author_id = e.author_id
      ∧ (Event.from_json b e.json).guild_id = e.guild_id
      ∧ (Event.from_json b e.json).channel_id = e.channel_id
      ∧ (Event.from_json b e.json).message_id = e.message_id
      ∧ (Event.from_json b e.json).entrants.Perm e.entrants :=
  ⟨rfl, rfl, rfl, rfl, rfl, rfl, rfl, rfl, List.Perm.refl _⟩

/-- C7: `end()` is idempotent — a second `end()` yields the same ended
state and the same returned embed, and the roster is untouched. -/
theorem claim_end_idempotent (e : Event) :
    ((e.end.1).end).1 = e.end.1
      ∧ ((e.end.1).end).2 = e.end.2
      ∧ (e.end.1).ended = true
      ∧ (e.end.1).entrants = e.entrants :=
  ⟨rfl, rfl, rfl, rfl⟩

/-- C5: on an ❌ reaction (the end emoji is no class emoji in the
catalog), the handler runs the end branch; a non-author only has the
reaction stripped and the event keeps its ended flag and entrants, while
the author's reaction clears all reactions, ends the event, DMs the
author and updates the embed. -/
theorem claim_end_emoji_author_only (cat : Catalog) (e : Event) (uid : Nat)
    (dmOk : Bool) (replies : List String)
    (hc : List.lookup "❌" cat.emoji_class_dict = none) :
    handleReaction cat e uid false "❌" dmOk replies = some (endBranch e uid)
      ∧ (uid ≠ e.author_id →
          endBranch e uid = (e, [Action.removeReaction "❌" uid]))
      ∧ (uid = e.author_id →
          (endBranch e uid).1 = { e with ended := true }
            ∧ (endBranch e uid).2
                = [Action.clearReactions, Action.sendDM uid DMMsg.eventEnded,
                   Action.editMessage ({ e with ended := true } : Event).embed]) := by
  refine ⟨by simp [handleReaction, hc], ?_, ?_⟩
  · intro hne
    simp [endBranch, Ne.symm hne]
  · intro heq
    subst heq
    simp [endBranch, Event.end, Event.embed]

/-- C5 witness: user 7 is not the author (42) of `exEvent`; author 42
triggers the end path. -/
theorem claim_end_emoji_author_only_witness :
    (handleReaction exCatalog exEvent 7 false "❌" true [] = some (endBranch exEvent 7)
      ∧ (7 ≠ exEvent.author_id →
          endBranch exEvent 7 = (exEvent, [Action.removeReaction "❌" 7]))
      ∧ (7 = exEvent.author_id →
          (endBranch exEvent 7).1 = { exEvent with ended := true }
            ∧ (endBranch exEvent 7).2
                = [Action.clearReactions, Action.sendDM 7 DMMsg.eventEnded,
                   Action.editMessage ({ exEvent with ended := true } : Event).embed]))
    ∧ (handleReaction exCatalog exEvent 42 false "❌" true [] = some (endBranch exEvent 42)
      ∧ (42 ≠ exEvent.author_id →
          endBranch exEvent 42 = (exEvent, [Action.removeReaction "❌" 42]))
      ∧ (42 = exEvent.author_id →
          (endBranch exEvent 42).1 = { exEvent with ended := true }
            ∧ (endBranch exEvent 42).2
                = [Action.clearReactions, Action.sendDM 42 DMMsg.eventEnded,
                   Action.editMessage ({ exEvent with ended := true } : Event).embed])) :=
  ⟨claim_end_emoji_author_only exCatalog exEvent 7 true [] (by decide),
   claim_end_emoji_author_only exCatalog exEvent 42 true [] (by decide)⟩

/-- C8: on a 🧻 reaction (the leave emoji is no class emoji in the
catalog), the handler runs the leave branch; the reaction is stripped
first in every case; a signed-up user's Entrant is removed (gone
entirely when user ids were unique), with a confirmation DM and an
embed update; anyone else gets the "not signed up" DM and the event is
unchanged. -/
theorem claim_leave_emoji (cat : Catalog) (e : Event) (uid : Nat)
    (dmOk : Bool) (replies : List String)
    (hc : List.lookup "🧻" cat.emoji_class_dict = none) :
    handleReaction cat e uid false "🧻" dmOk replies = some (leaveBranch e uid)
      ∧ (leaveBranch e uid).2.head? = some (Action.removeReaction "🧻" uid)
      ∧ (∀ en, e.get_entrant uid = some en →
          leaveBranch e uid
            = (e.remove_entrant en,
               [Action.removeReaction "🧻" uid, Action.sendDM uid DMMsg.removedFromEvent,
                Action.editMessage (e.remove_entrant en).embed])
            ∧ (uniqueEntrants e → (e.remove_entrant en).get_entrant uid = none))
      ∧ (e.get_entrant uid = none →
          leaveBranch e uid
            = (e, [Action.removeReaction "🧻" uid, Action.sendDM uid DMMsg.notSignedUp])) := by
  have hne : ("🧻" : String) ≠ "❌" := by decide
  refine ⟨by simp [handleReaction, hc, hne], ?_, ?_, ?_⟩
  · cases hg : e.get_entrant uid <;> simp [leaveBranch, hg]
  · intro en hen
    refine ⟨by simp [leaveBranch, hen], fun hu => ?_⟩
    unfold Event.get_entrant Event.remove_entrant at *
    exact find?_removeFirst_eq_none e.entrants uid en hu hen
  · intro hn
    simp [leaveBranch, hn]

/-- C8 witness: user 7 leaves `exEventSigned` (their Entrant goes away);
user 7 "leaves" the empty `exEvent` (not signed up, nothing changes). -/
theorem claim_leave_emoji_witness :
    (handleReaction exCatalog exEventSigned 7 false "🧻" true []
        = some (leaveBranch exEventSigned 7)
      ∧ (leaveBranch exEventSigned 7).2.head? = some (Action.removeReaction "🧻" 7)
      ∧ (∀ en, exEventSigned.get_entrant 7 = some en →
          leaveBranch exEventSigned 7
            = (exEventSigned.remove_entrant en,
               [Action.removeReaction "🧻" 7, Action.sendDM 7 DMMsg.removedFromEvent,
                Action.editMessage (exEventSigned.remove_entrant en).embed])
            ∧ (uniqueEntrants exEventSigned →
                (exEventSigned.remove_entrant en).get_entrant 7 = none))
      ∧ (exEventSigned.get_entrant 7 = none →
          leaveBranch exEventSigned 7
            = (exEventSigned,
               [Action.removeReaction "🧻" 7, Action.sendDM 7 DMMsg.notSignedUp])))
    ∧ (handleReaction exCatalog exEvent 7 false "🧻" true [] = some (leaveBranch exEvent 7)
      ∧ (leaveBranch exEvent 7).2.head? = some (Action.removeReaction "🧻" 7)
      ∧ (∀ en, exEvent.get_entrant 7 = some en →
          leaveBranch exEvent 7
            = (exEvent.remove_entrant en,
               [Action.removeReaction "🧻" 7, Action.sendDM 7 DMMsg.removedFromEvent,
                Action.editMessage (exEvent.remove_entrant en).embed])
            ∧ (uniqueEntrants exEvent → (exEvent.remove_entrant en).get_entrant 7 = none))
      ∧ (exEvent.get_entrant 7 = none →
          leaveBranch exEvent 7
            = (exEvent, [Action.removeReaction "🧻" 7, Action.sendDM 7 DMMsg.notSignedUp]))) :=
  ⟨claim_leave_emoji exCatalog exEventSigned 7 true [] (by decide),
   claim_leave_emoji exCatalog exEvent 7 true [] (by decide)⟩

/-- C3: a class-emoji signup whose first DM reply is a valid number
creates the Entrant with the chosen class, the n-th listed spec and that
spec's first category, then DMs the confirmation, edits the event
message with the re-rendered embed and removes the triggering reaction
— in that order, after the cosmetic cleanup and the spec prompt. -/
theorem claim_valid_reply_signup (cat : Catalog) (e : Event) (uid : Nat)
    (emoji cls : String) (details : ClassDetails) (acts0 : List Action)
    (r : String) (rest : List String) (spName : String) (spDet spDet2 : SpecDetails)
    (cat0 : String)
    (hpre : priorCleanup cat e uid = some acts0)
    (hcls : List.lookup emoji cat.emoji_class_dict = some cls)
    (hdet : List.lookup cls cat.class_spec_dict = some details)
    (hval : validAnswer details.specs.length r = true)
    (hget : details.specs[pyInt r - 1]? = some (spName, spDet))
    (hlook : List.lookup spName details.specs = some spDet2)
    (hcat : spDet2.categories.head? = some cat0) :
    classBranch cat e uid emoji true (r :: rest)
      = some (e.add_entrant uid cls cat0 spName,
          acts0
            ++ [Action.sendDM uid
                  (DMMsg.specPrompt cls (details.specs.map fun kv => (kv.1, kv.2.emoji))),
                Action.sendDM uid DMMsg.signedUp,
                Action.editMessage (e.add_entrant uid cls cat0 spName).embed,
                Action.removeReaction emoji uid])
      ∧ (e.add_entrant uid cls cat0 spName).get_entrant uid
          = some { user_id := uid, category_class := cls, category := cat0, spec := spName } := by
  refine ⟨?_, get_entrant_add_entrant e uid cls cat0 spName⟩
  have hloop :
      specLoop emoji uid (details.specs.map fun kv => (kv.1, kv.2.emoji)).length (r :: rest)
        = ([], some (pyInt r)) := by
    rw [List.length_map]
    exact specLoop_valid_head emoji uid details.specs.length r rest hval
  simp only [classBranch, hpre, hcls, hdet, hloop, if_true, List.getElem?_map, hget]
  simp [hlook, hcat]

/-- C3 witness: the spec scenario — user 7 reacts 🧙 on a three-spec
class and replies "2"; the resulting Entrant carries the second listed
spec (Fire) and its first category. -/
theorem claim_valid_reply_signup_witness :
    (classBranch exCatalog exEvent 7 "🧙" true ["2"]
      = some (exEvent.add_entrant 7 "Mage" "Ranged" "Fire",
          []
            ++ [Action.sendDM 7
                  (DMMsg.specPrompt "Mage"
                    ((exCatalog.class_spec_dict.lookup "Mage").getD
                        { emoji := "", specs := [] } |>.specs.map fun kv => (kv.1, kv.2.emoji))),
                Action.sendDM 7 DMMsg.signedUp,
                Action.editMessage (exEvent.add_entrant 7 "Mage" "Ranged" "Fire").embed,
                Action.removeReaction "🧙" 7])
      ∧ (exEvent.add_entrant 7 "Mage" "Ranged" "Fire").get_entrant 7
          = some { user_id := 7, category_class := "Mage", category := "Ranged", spec := "Fire" }) :=
  claim_valid_reply_signup exCatalog exEvent 7 "🧙" "Mage"
    ((exCatalog.class_spec_dict.lookup "Mage").getD { emoji := "", specs := [] })
    [] "2" [] "Fire" { emoji := "🔥", categories := ["Ranged", "Caster"] }
    { emoji := "🔥", categories := ["Ranged", "Caster"] } "Ranged"
    (by decide) (by decide) (by decide) (by decide) (by decide) (by decide) (by decide)

/-- C4: during spec selection with the DM delivered, when every reply in
the stream is non-numeric or out of range, no Entrant is created (the
event is returned unchanged) and each bad reply is answered with the
re-prompt, however many there are; exhausting the stream is the
60-second timeout, after which the user is notified and the triggering
reaction is removed. -/
theorem claim_invalid_replies_then_timeout (cat : Catalog) (e : Event) (uid : Nat)
    (emoji cls : String) (details : ClassDetails) (acts0 : List Action)
    (replies : List String)
    (hpre : priorCleanup cat e uid = some acts0)
    (hcls : List.lookup emoji cat.emoji_class_dict = some cls)
    (hdet : List.lookup cls cat.class_spec_dict = some details)
    (hall : ∀ r ∈ replies, validAnswer details.specs.length r = false) :
    classBranch cat e uid emoji true replies
      = some (e,
          acts0
            ++ Action.sendDM uid
                 (DMMsg.specPrompt cls (details.specs.map fun kv => (kv.1, kv.2.emoji)))
              :: ((replies.map fun _ => Action.sendDM uid
                    (DMMsg.invalidAnswer details.specs.length))
                  ++ [Action.sendDM uid DMMsg.tooLong,
                      Action.removeReaction emoji uid])) := by
  have hloop :
      specLoop emoji uid (details.specs.map fun kv => (kv.1, kv.2.emoji)).length replies
        = ((replies.map fun _ => Action.sendDM uid (DMMsg.invalidAnswer details.specs.length))
            ++ [Action.sendDM uid DMMsg.tooLong, Action.removeReaction emoji uid],
           none) := by
    rw [List.length_map]
    exact specLoop_all_invalid emoji uid details.specs.length replies hall
  simp only [classBranch, hpre, hcls, hdet, hloop, if_true]

/-- C4 witness: user 7 reacts 🧙 on the three-spec class and replies
"9" (out of range) then "x" (non-numeric), then the wait times out: two
re-prompts, a timeout notice, the reaction removed, no Entrant. -/
theorem claim_invalid_replies_then_timeout_witness :
    classBranch exCatalog exEvent 7 "🧙" true ["9", "x"]
      = some (exEvent,
          []
            ++ Action.sendDM 7
                 (DMMsg.specPrompt "Mage"
                   ((exCatalog.class_spec_dict.lookup "Mage").getD
                       { emoji := "", specs := [] } |>.specs.map fun kv => (kv.1, kv.2.emoji)))
              :: ((["9", "x"].map fun _ => Action.sendDM 7
                    (DMMsg.invalidAnswer
                      ((exCatalog.class_spec_dict.lookup "Mage").getD
                          { emoji := "", specs := [] }).specs.length))
                  ++ [Action.sendDM 7 DMMsg.tooLong,
                      Action.removeReaction "🧙" 7])) :=
  claim_invalid_replies_then_timeout exCatalog exEvent 7 "🧙" "Mage"
    ((exCatalog.class_spec_dict.lookup "Mage").getD { emoji := "", specs := [] })
    [] ["9", "x"] (by decide) (by decide) (by decide) (by decide)

/-- C9 counterexample: user 7, already signed up as a Mage, re-reacts
with the Mage emoji 🧙 and the spec DM cannot be delivered. The claim
says the triggering reaction remains on the message, but the cosmetic
cleanup of the previous class (main.py 136-141) already removed exactly
that reaction, so the run's action trace does contain its removal. -/
theorem claim_dm_failure_counterexample :
    classBranch exCatalog exEventSigned 7 "🧙" false []
      = some (exEventSigned, [Action.removeReaction "🧙" 7, Action.channelSend 7])
    ∧ Action.removeReaction "🧙" 7
        ∈ [Action.removeReaction "🧙" 7, Action.channelSend 7] := by
  exact ⟨by decide, by decide⟩

/-- C9 (amended): when the spec-selection DM cannot be delivered the
handler posts the public failure notice in the event's channel and
aborts with the event unchanged — no Entrant is created; the failure
path itself removes no reaction, so the triggering reaction remains
unless the user already had an Entrant whose class emoji is the
triggering emoji, in which case the earlier cosmetic cleanup (the only
removal in the trace) already stripped it. -/
theorem claim_dm_failure_aborts (cat : Catalog) (e : Event) (uid : Nat)
    (emoji cls : String) (details : ClassDetails) (acts0 : List Action)
    (replies : List String)
    (hpre : priorCleanup cat e uid = some acts0)
    (hcls : List.lookup emoji cat.emoji_class_dict = some cls)
    (hdet : List.lookup cls cat.class_spec_dict = some details) :
    classBranch cat e uid emoji false replies
      = some (e, acts0 ++ [Action.channelSend uid])
      ∧ (e.get_entrant uid = none → acts0 = []) := by
  constructor
  · simp [classBranch, hpre, hcls, hdet]
  · intro hn
    unfold priorCleanup at hpre
    rw [hn] at hpre
    injection hpre with h2
    exact h2.symm

/-- C9 witness: user 7 has no Entrant in `exEvent`; the DM fails, the
public notice is the only action and the event is unchanged. -/
theorem claim_dm_failure_aborts_witness :
    (classBranch exCatalog exEvent 7 "🧙" false []
      = some (exEvent, [] ++ [Action.channelSend 7])
      ∧ (exEvent.get_entrant 7 = none → ([] : List Action) = [])) :=
  claim_dm_failure_aborts exCatalog exEvent 7 "🧙" "Mage"
    ((exCatalog.class_spec_dict.lookup "Mage").getD { emoji := "", specs := [] })
    [] [] (by decide) (by decide) (by decide)

end EventManager
